import Mathlib

/-!
Shallow embedding of `src/component.py` (Keboola component updating Brevo
contacts) and verification of the specification claims about it.

External effects (HTTP responses, the wall clock, the md5 digest) are
parameters of the model; everything else is translated line by line from
the source.
-/

set_option linter.unusedVariables false

namespace Brevo

/-- An HTTP response as seen by the component: status code, raw text body,
and the parsed JSON body (modelled as a string-valued association list,
which covers every payload the component inspects). -/
structure HttpResponse where
  status : Nat
  text : String
  json : List (String × String)
deriving DecidableEq, Repr

/-- The value returned by an API-client method: either a fixed sentinel
string or the parsed JSON body (a dict in the source). -/
inductive Outcome where
  | str (s : String)
  | dict (d : List (String × String))
deriving DecidableEq, Repr

/-- A Python exception escaping the pipeline: `UserException` (the
component's own error type) or any other exception (`KeyError`,
`AttributeError`, ...). -/
inductive PyExc where
  | userException (msg : String)
  | otherExc (msg : String)
deriving DecidableEq, Repr

/-- `Component.send_data_to_api` (component.py lines 30-49), applied to the
response the POST to `/v3/contacts/batch` returned.  Result: the outcome or
the raised `UserException`, paired with the warnings logged. -/
def send_data_to_api (response : HttpResponse) : Except PyExc Outcome × List String :=
  if response.status = 204 then
    (.ok (.str "Email updated (Sms,Email)"), [])
  else if response.status = 200 then
    (.ok (.dict response.json), [])
  else if response.status = 404 then
    (.ok (.str "Email not found"),
      ["API returned 404 status. Response: " ++ response.text])
  else
    (.error (.userException ("Failed to send data to API. Status Code: "
      ++ toString response.status ++ ", Response: " ++ response.text)), [])

/-- `Component.delete_data_from_api` (component.py lines 51-68), applied to
the response the DELETE to `/v3/smtp/blockedContacts/{email}` returned.
Both non-raising branches return a plain sentinel string. -/
def delete_data_from_api (response : HttpResponse) : Except PyExc String × List String :=
  if response.status = 204 then
    (.ok "Unblock or resubscribe a transactional Email", [])
  else if response.status = 404 then
    (.ok "Transactional Email not found",
      ["API returned 404 status. Response: " ++ response.text])
  else
    (.error (.userException ("Failed to delete data from API. Status Code: "
      ++ toString response.status ++ ", Response: " ++ response.text)), [])

/-- One row of the input CSV: a cell value for each column name
(association list, as `pandas.read_csv(..., dtype=str)` yields strings). -/
abbrev Row := List (String × String)

/-- Reading a cell of a row; an absent cell reads as the empty string. -/
def getCell (r : Row) (c : String) : String :=
  (((r.find? (fun p => p.1 = c)).map Prod.snd)).getD ""

/-- An input table definition together with its loaded data
(`get_input_tables_definitions` + `pd.read_csv`). -/
structure InputTable where
  name : String
  columns : List String
  rows : List Row
deriving DecidableEq, Repr

/-- A record after column selection and flag normalization
(component.py lines 128-134): `email`, the two blacklist flags coerced to
booleans, and `transactionalContact` kept as the raw string. -/
structure NormRecord where
  email : String
  emailBlacklisted : Bool
  smsBlacklisted : Bool
  transactionalContact : String
deriving DecidableEq, Repr

/-- Python's `str.lower()` on the strings this component compares:
character-wise lowercasing (equivalent to `String.toLower`, written on the
character list so that concrete runs evaluate). -/
def pyLower (s : String) : String := String.mk (s.data.map Char.toLower)

/-- Column selection and flag normalization of one row
(component.py lines 129-134): the two blacklist flags become
`True if x.lower() == 'true' else False`. -/
def normalize (r : Row) : NormRecord :=
  { email := getCell r "email"
    emailBlacklisted := pyLower (getCell r "emailBlacklisted") = "true"
    smsBlacklisted := pyLower (getCell r "smsBlacklisted") = "true"
    transactionalContact := getCell r "transactionalContact" }

/-- The columns `run` projects the dataframe to (component.py line 129). -/
def selected_columns : List String :=
  ["email", "emailBlacklisted", "smsBlacklisted", "transactionalContact"]

/-- `Component.create_hash` (component.py lines 110-115): md5 hex digest of
the concatenation `f"{email}{timestamp}"`.  The digest function itself is
the `md5` parameter (an external library call, like the network). -/
def create_hash (md5 : String → String) (email timestamp : String) : String :=
  md5 (email ++ timestamp)

/-- `max_records_per_request` (component.py line 137). -/
def max_records_per_request : Nat := 1

/-- The batching list comprehension (component.py line 138):
`[data.iloc[i:i+n] for i in range(0, len(data), n)]`.  For `n > 0`,
`range(0, K, n)` has `ceil(K/n)` elements `0, n, 2n, ...`. -/
def payloads (n : Nat) (l : List α) : List (List α) :=
  (List.range ((l.length + n - 1) / n)).map (fun i => (l.drop (i * n)).take n)

/-- Recursive characterization of the batching comprehension, used for
proofs: peel off the first `n + 1` elements until nothing is left. -/
def chunksRec (n : Nat) : List α → List (List α)
  | [] => []
  | x :: xs => (x :: xs).take (n + 1) :: chunksRec n ((x :: xs).drop (n + 1))
termination_by l => l.length
decreasing_by simp; omega

/-- `Component._parse_table` (component.py lines 70-93): fails unless
exactly one input table is configured; an empty table is only logged. -/
def parse_table (tables : List InputTable) : Except PyExc InputTable :=
  match tables with
  | [] => .error (.userException
      "There is no table specified on the input mapping! You must provide one input table!")
  | [table] => .ok table
  | _ :: _ :: _ => .error (.userException
      "There is more than one table specified on the input mapping! You must provide one input table!")

/-- One line of the output CSV (fields of component.py line 106). -/
structure AuditRow where
  id : String
  timestamp : String
  email : String
  status : String
deriving DecidableEq, Repr

/-- The status written to the audit row (component.py lines 152-155):
`api_response.get('status', 'Error')` for a dict, the outcome itself
otherwise. -/
def statusOf (api_response : Outcome) : String :=
  match api_response with
  | .dict d => ((d.find? (fun p => p.1 = "status")).map Prod.snd).getD "Error"
  | .str s => s

/-- The environment a run executes in: the responses of the two endpoints
(indexed by call count), the wall clock (indexed by `datetime.now()` call
count), the md5 digest, the configured input tables, and whether
`_create_tables_definitions` raises before `self._output_file` is
assigned (e.g. `create_out_table_definition` or `open` failing). -/
structure Env where
  upsertResponse : Nat → HttpResponse
  deleteResponse : Nat → HttpResponse
  clock : Nat → String
  md5 : String → String
  inputTables : List InputTable
  defsRaise : Option PyExc

/-- Mutable state threaded through the batch loop: audit rows written so
far (in order), warnings logged, and the number of calls made to each
external effect. -/
structure LoopState where
  rows : List AuditRow := []
  warnings : List String := []
  upsertCalls : Nat := 0
  deleteCalls : Nat := 0
  clockCalls : Nat := 0
deriving DecidableEq, Repr

/-- The per-record body of the batch loop (component.py lines 148-180):
take one timestamp, derive the status from the shared upsert outcome,
write an audit row, and for a transactional record call the delete
endpoint and write a second row reusing the same `timestamp` variable.
Returns the new state and the exception aborting the loop, if any. -/
def processRecord (env : Env) (api_response : Outcome) (record : NormRecord)
    (st : LoopState) : LoopState × Option PyExc :=
  let timestamp := env.clock st.clockCalls
  let st := { st with clockCalls := st.clockCalls + 1 }
  let status := statusOf api_response
  let record_hash := create_hash env.md5 record.email timestamp
  let st := { st with rows := st.rows ++
    [{ id := record_hash, timestamp := timestamp, email := record.email, status := status }] }
  if pyLower record.transactionalContact = "true" then
    let response := env.deleteResponse st.deleteCalls
    let st := { st with deleteCalls := st.deleteCalls + 1 }
    let (res, ws) := delete_data_from_api response
    let st := { st with warnings := st.warnings ++ ws }
    match res with
    | .error e => (st, some e)
    | .ok delete_api_response =>
        let deleted_record_hash := create_hash env.md5 record.email timestamp
        ({ st with rows := st.rows ++
          [{ id := deleted_record_hash, timestamp := timestamp,
             email := record.email, status := delete_api_response }] }, none)
  else
    (st, none)

/-- The inner `for record in payload` loop (component.py line 148),
stopping at the first raised exception. -/
def processRecords (env : Env) (api_response : Outcome) :
    List NormRecord → LoopState → LoopState × Option PyExc
  | [], st => (st, none)
  | record :: rest, st =>
      match processRecord env api_response record st with
      | (st, some e) => (st, some e)
      | (st, none) => processRecords env api_response rest st

/-- The outer `for payload in payloads` loop (component.py lines 142-180):
an empty payload is skipped; otherwise one upsert call is made and each
record of the payload is processed with the shared outcome. -/
def processPayloads (env : Env) :
    List (List NormRecord) → LoopState → LoopState × Option PyExc
  | [], st => (st, none)
  | payload :: rest, st =>
      if payload.isEmpty then
        processPayloads env rest st
      else
        let (res, ws) := send_data_to_api (env.upsertResponse st.upsertCalls)
        let st := { st with upsertCalls := st.upsertCalls + 1,
                            warnings := st.warnings ++ ws }
        match res with
        | .error e => (st, some e)
        | .ok api_response =>
            match processRecords env api_response payload st with
            | (st, some e) => (st, some e)
            | (st, none) => processPayloads env rest st

/-- Every upsert call in this environment gets one of the three statuses
`send_data_to_api` handles without raising. -/
def upsertOk (env : Env) : Prop :=
  ∀ k, (env.upsertResponse k).status = 204 ∨ (env.upsertResponse k).status = 200
    ∨ (env.upsertResponse k).status = 404

/-- Every delete call in this environment gets one of the two statuses
`delete_data_from_api` handles without raising. -/
def deleteOk (env : Env) : Prop :=
  ∀ k, (env.deleteResponse k).status = 204 ∨ (env.deleteResponse k).status = 404

/-- The body of the `try` block of `run` after the output file was opened
(component.py lines 126-180): parse the table, select the four columns
(a missing column raises a pandas `KeyError`, a plain `Exception`),
normalize, batch, and loop. -/
def tryBody (env : Env) : LoopState × Option PyExc :=
  match parse_table env.inputTables with
  | .error e => ({}, some e)
  | .ok table =>
      if selected_columns.all (fun c => table.columns.contains c) then
        let records := table.rows.map normalize
        processPayloads env (payloads max_records_per_request records) {}
      else
        ({}, some (.otherExc "KeyError: columns not in index"))

/-- How a run terminates. `success` is a normal return from `run`;
`exitCode` is a call of `exit(1)`/`exit(2)` from the handlers at
component.py lines 182-187 that survives the `finally` block;
`uncaughtOther` is an exception raised inside the `finally` block itself,
which replaces any pending exit. -/
inductive RunOutcome where
  | success
  | exitCode (n : Nat)
  | uncaughtOther (msg : String)
deriving DecidableEq, Repr

/-- Lifecycle events of the output file handle. -/
inductive FileEvent where
  | opened
  | closed
deriving DecidableEq, Repr

/-- The observable result of one run. -/
structure RunResult where
  outcome : RunOutcome
  rows : List AuditRow
  warnings : List String
  upsertCalls : Nat
  deleteCalls : Nat
  clockCalls : Nat
  fileEvents : List FileEvent
deriving DecidableEq, Repr

/-- `__init__` (component.py lines 26-28) assigns `self._output_writer =
None` but never assigns `self._output_file`: that attribute starts out
unset (`none` models an attribute whose read raises `AttributeError`). -/
def init_output_file_attr : Option Unit := none

/-- The `finally` block of `run` (component.py lines 188-191): evaluate
`if self._output_file:`.  Reading an unassigned attribute raises
`AttributeError`, which replaces whatever exit was pending; an assigned
(always truthy) file object is closed exactly once. -/
def finallyBlock (output_file_attr : Option Unit) (pending : RunOutcome)
    (events : List FileEvent) : RunOutcome × List FileEvent :=
  match output_file_attr with
  | none => (.uncaughtOther "AttributeError: _output_file", events)
  | some _ => (pending, events ++ [.closed])

/-- The `except` clauses of `run` (component.py lines 182-187): a
`UserException` maps to `exit(1)`, any other exception to `exit(2)`, and
no exception to a normal return. -/
def exceptClauses : Option PyExc → RunOutcome
  | none => RunOutcome.success
  | some (.userException _) => RunOutcome.exitCode 1
  | some (.otherExc _) => RunOutcome.exitCode 2

/-- `Component.run` (component.py lines 117-191).  First
`_create_tables_definitions` runs: if it raises before the assignment
`self._output_file = open(...)` completes (component.py lines 100-105),
the attribute stays unset and no file is opened; otherwise the output
file is opened and the header written.  Then the try-block body runs, the
`except` clauses translate its exception (if any) to an exit code, and
the `finally` block runs last. -/
def run (env : Env) : RunResult :=
  match env.defsRaise with
  | some e =>
      let (outcome, events) :=
        finallyBlock init_output_file_attr (exceptClauses (some e)) []
      { outcome := outcome
        rows := [], warnings := [], upsertCalls := 0, deleteCalls := 0
        clockCalls := 0, fileEvents := events }
  | none =>
      let (st, err) := tryBody env
      let (outcome, events) := finallyBlock (some ()) (exceptClauses err) [.opened]
      { outcome := outcome
        rows := st.rows, warnings := st.warnings
        upsertCalls := st.upsertCalls, deleteCalls := st.deleteCalls
        clockCalls := st.clockCalls, fileEvents := events }

/-- Modelled from the spec: the process exit code for a run outcome.  The
mapping of a normal `run` return to process exit code 0 lives in the
Keboola `ComponentBase.execute_action` runtime, which is not part of this
repository; the spec states "0 success".  An exception raised in the
`finally` block leaves the mapped exit-code path entirely (Python then
terminates via the unhandled-exception path). -/
def processExitCode : RunOutcome → Option Nat
  | .success => some 0
  | .exitCode n => some n
  | .uncaughtOther _ => none

/-! Concrete tables and environments, used to evaluate the model on
specific runs. -/

/-- A benign environment around a given input-table list: both endpoints
answer 204, the clock ticks distinct second-granularity strings, and the
digest is injective on sight. -/
def mkEnv (tables : List InputTable) : Env :=
  { upsertResponse := fun _ => ⟨204, "", []⟩
    deleteResponse := fun _ => ⟨204, "", []⟩
    clock := fun k => "2024-01-01 00:00:0" ++ toString k
    md5 := fun s => "md5:" ++ s
    inputTables := tables
    defsRaise := none }

/-- One input table holding a single transactional record. -/
def tableSingleTransactional : InputTable :=
  { name := "in.csv", columns := selected_columns
    rows := [[("email", "a@x.cz"), ("emailBlacklisted", "false"),
              ("smsBlacklisted", "false"), ("transactionalContact", "TRUE")]] }

/-- One input table whose header misses the required
`transactionalContact` column. -/
def tableMissingColumn : InputTable :=
  { name := "in.csv", columns := ["email", "emailBlacklisted", "smsBlacklisted"]
    rows := [[("email", "a@x.cz"), ("emailBlacklisted", "false"),
              ("smsBlacklisted", "false")]] }

/-- One input table with the right header and zero rows. -/
def tableEmpty : InputTable :=
  { name := "in.csv", columns := selected_columns, rows := [] }

/-- One input table with two plain (non-transactional) records. -/
def tableTwoPlain : InputTable :=
  { name := "in.csv", columns := selected_columns
    rows := [[("email", "a@x.cz"), ("emailBlacklisted", "false"),
              ("smsBlacklisted", "false"), ("transactionalContact", "false")],
             [("email", "b@x.cz"), ("emailBlacklisted", "false"),
              ("smsBlacklisted", "false"), ("transactionalContact", "false")]] }

def envSingleTransactional : Env := mkEnv [tableSingleTransactional]

def envMissingColumn : Env := mkEnv [tableMissingColumn]

def envEmptyTable : Env := mkEnv [tableEmpty]

/-- An environment in which the first upsert call succeeds and the second
one gets HTTP 500: the run fails in the middle of the batch loop. -/
def envMidRunFailure : Env :=
  { mkEnv [tableTwoPlain] with
      upsertResponse := fun k =>
        if k = 0 then ⟨204, "", []⟩ else ⟨500, "Internal Server Error", []⟩ }

/-- An environment in which `_create_tables_definitions` raises before the
assignment `self._output_file = open(...)` completes. -/
def envDefsRaise : Env :=
  { mkEnv [tableSingleTransactional] with
      defsRaise := some (.otherExc "OSError: cannot create output.csv") }

/-! Helper lemmas: the batching comprehension agrees with its recursive
characterization, and the loop bookkeeping. -/

lemma payloads_nil (n : Nat) : payloads n ([] : List α) = [] := by
  unfold payloads
  cases n with
  | zero => simp
  | succ m =>
      have : 0 + (m + 1) - 1 = m := by omega
      rw [List.length_nil, this, Nat.div_eq_of_lt (by omega)]
      rfl

lemma ceil_div_pred (K n : Nat) (hK : 1 ≤ K) :
    (K + (n + 1) - 1) / (n + 1) = (K - 1) / (n + 1) + 1 := by
  have h1 : K + (n + 1) - 1 = (K - 1) + (n + 1) := by omega
  rw [h1, Nat.add_div_right _ (Nat.succ_pos n)]

lemma sub_add_div_pred (K n : Nat) (hK : 1 ≤ K) :
    (K - (n + 1) + (n + 1) - 1) / (n + 1) = (K - 1) / (n + 1) := by
  rcases le_or_lt K (n + 1) with h | h
  · have e0 : K - (n + 1) = 0 := by omega
    rw [e0]
    have e1 : 0 + (n + 1) - 1 = n := by omega
    rw [e1, Nat.div_eq_of_lt (by omega), Nat.div_eq_of_lt (by omega)]
  · have e1 : K - (n + 1) + (n + 1) - 1 = (K - 1 - (n + 1)) + (n + 1) := by omega
    rw [e1, Nat.add_div_right _ (Nat.succ_pos n)]
    conv_rhs => rw [Nat.div_eq_sub_div (Nat.succ_pos n) (by omega)]

lemma payloads_cons (n : Nat) (l : List α) (hl : l ≠ []) :
    payloads (n + 1) l = l.take (n + 1) :: payloads (n + 1) (l.drop (n + 1)) := by
  have hK : 1 ≤ l.length := List.length_pos.mpr hl
  unfold payloads
  rw [List.length_drop]
  rw [ceil_div_pred _ _ hK, sub_add_div_pred _ _ hK]
  rw [List.range_succ_eq_map, List.map_cons, List.map_map]
  congr 1
  · simp
  · apply List.map_congr_left
    intro i hi
    simp only [Function.comp_apply, List.drop_drop]
    have e : Nat.succ i * (n + 1) = (n + 1) + i * (n + 1) := by
      simp [Nat.succ_mul, Nat.add_comm]
    rw [e]

lemma payloads_eq_chunksRec (n : Nat) : ∀ l : List α, payloads (n + 1) l = chunksRec n l
  | [] => by rw [chunksRec]; exact payloads_nil _
  | x :: xs => by
      rw [chunksRec, payloads_cons n (x :: xs) (by simp)]
      rw [payloads_eq_chunksRec n ((x :: xs).drop (n + 1))]
termination_by l => l.length
decreasing_by simp; omega

lemma chunksRec_flatten (n : Nat) : ∀ l : List α, (chunksRec n l).flatten = l
  | [] => by rw [chunksRec]; rfl
  | x :: xs => by
      rw [chunksRec, List.flatten_cons,
        chunksRec_flatten n ((x :: xs).drop (n + 1)), List.take_append_drop]
termination_by l => l.length
decreasing_by simp; omega

lemma chunksRec_length (n : Nat) : ∀ l : List α, (chunksRec n l).length = (l.length + (n + 1) - 1) / (n + 1)
  | [] => by
      rw [chunksRec]
      have : (0 : Nat) + (n + 1) - 1 = n := by omega
      rw [List.length_nil, List.length_nil, this, Nat.div_eq_of_lt (by omega)]
  | x :: xs => by
      have hK : 1 ≤ (x :: xs).length := by simp
      rw [chunksRec, List.length_cons, chunksRec_length n ((x :: xs).drop (n + 1))]
      rw [List.length_drop]
      rw [sub_add_div_pred _ _ hK, ceil_div_pred _ _ hK]
termination_by l => l.length
decreasing_by simp; omega

lemma chunksRec_mem (n : Nat) : ∀ l : List α, ∀ c ∈ chunksRec n l, c.length ≤ n + 1 ∧ c ≠ []
  | [] => by rw [chunksRec]; intro c hc; simp at hc
  | x :: xs => by
      rw [chunksRec]
      intro c hc
      rcases List.mem_cons.mp hc with h | h
      · subst h
        refine ⟨List.length_take_le _ _, ?_⟩
        rw [List.take_succ_cons]
        simp
      · exact chunksRec_mem n ((x :: xs).drop (n + 1)) c h
termination_by l => l.length
decreasing_by simp; omega

lemma chunksRec_dropLast (n : Nat) : ∀ l : List α, ∀ c ∈ (chunksRec n l).dropLast, c.length = n + 1
  | [] => by rw [chunksRec]; intro c hc; simp at hc
  | x :: xs => by
      rw [chunksRec]
      by_cases hd : (x :: xs).drop (n + 1) = []
      · rw [hd, chunksRec]
        intro c hc
        simp at hc
      · have ht : chunksRec n ((x :: xs).drop (n + 1)) ≠ [] := by
          cases hdrop : (x :: xs).drop (n + 1) with
          | nil => exact absurd hdrop hd
          | cons y ys => rw [chunksRec]; simp
        intro c hc
        rw [List.dropLast_cons_of_ne_nil ht] at hc
        rcases List.mem_cons.mp hc with h | h
        · subst h
          have hlen : n + 1 < (x :: xs).length := by
            have := (not_congr List.drop_eq_nil_iff).mp hd
            omega
          rw [List.length_take]
          omega
        · exact chunksRec_dropLast n ((x :: xs).drop (n + 1)) c h
termination_by l => l.length
decreasing_by simp; omega

lemma processRecord_ok (env : Env) (hd : deleteOk env) (out : Outcome)
    (record : NormRecord) (st : LoopState) :
    (processRecord env out record st).2 = none ∧
    (processRecord env out record st).1.upsertCalls = st.upsertCalls := by
  unfold processRecord
  by_cases htr : pyLower record.transactionalContact = "true"
  · rcases hd st.deleteCalls with h | h <;>
      simp [htr, delete_data_from_api, h]
  · simp [htr]

lemma processRecords_ok (env : Env) (hd : deleteOk env) (out : Outcome) :
    ∀ (records : List NormRecord) (st : LoopState),
    (processRecords env out records st).2 = none ∧
    (processRecords env out records st).1.upsertCalls = st.upsertCalls := by
  intro records
  induction records with
  | nil => intro st; exact ⟨rfl, rfl⟩
  | cons r rest ih =>
      intro st
      obtain ⟨h2, h1⟩ := processRecord_ok env hd out r st
      rcases hpr : processRecord env out r st with ⟨st1, err⟩
      rw [hpr] at h2 h1
      simp only at h2 h1
      subst h2
      simp only [processRecords, hpr]
      obtain ⟨g2, g1⟩ := ih st1
      exact ⟨g2, g1.trans h1⟩

lemma send_ok_of_status (env : Env) (hu : upsertOk env) (k : Nat) :
    ∃ out ws, send_data_to_api (env.upsertResponse k) = (.ok out, ws) := by
  rcases hu k with h | h | h
  · exact ⟨.str "Email updated (Sms,Email)", [], by simp [send_data_to_api, h]⟩
  · exact ⟨.dict (env.upsertResponse k).json, [], by simp [send_data_to_api, h]⟩
  · exact ⟨.str "Email not found",
      ["API returned 404 status. Response: " ++ (env.upsertResponse k).text],
      by simp [send_data_to_api, h]⟩

lemma processPayloads_ok (env : Env) (hu : upsertOk env) (hd : deleteOk env) :
    ∀ (ps : List (List NormRecord)) (st : LoopState),
    (processPayloads env ps st).2 = none ∧
    (processPayloads env ps st).1.upsertCalls
      = st.upsertCalls + ps.countP (fun p => !p.isEmpty) := by
  intro ps
  induction ps with
  | nil => intro st; exact ⟨rfl, by simp [processPayloads]⟩
  | cons payload rest ih =>
      intro st
      by_cases hemp : payload.isEmpty
      · obtain ⟨g2, g1⟩ := ih st
        refine ⟨?_, ?_⟩
        · simpa [processPayloads, hemp] using g2
        · simp [processPayloads, hemp, List.countP_cons, g1]
      · obtain ⟨out, ws, hsend⟩ := send_ok_of_status env hu st.upsertCalls
        rcases hrec : processRecords env out payload
          { st with upsertCalls := st.upsertCalls + 1,
                    warnings := st.warnings ++ ws } with ⟨st2, err2⟩
        obtain ⟨h2, h1⟩ := processRecords_ok env hd out payload
          { st with upsertCalls := st.upsertCalls + 1,
                    warnings := st.warnings ++ ws }
        rw [hrec] at h2 h1
        simp only at h2 h1
        subst h2
        obtain ⟨g2, g1⟩ := ih st2
        refine ⟨?_, ?_⟩
        · simpa [processPayloads, hemp, hsend, hrec] using g2
        · simp [processPayloads, hemp, hsend, hrec, List.countP_cons, g1]
          omega

lemma processPayloads_abort (env : Env) (payload : List NormRecord)
    (rest : List (List NormRecord)) (st : LoopState) (e : PyExc) (w : List String)
    (hemp : payload.isEmpty = false)
    (hsend : send_data_to_api (env.upsertResponse st.upsertCalls) = (.error e, w)) :
    (processPayloads env (payload :: rest) st).2 = some e ∧
    (processPayloads env (payload :: rest) st).1.upsertCalls = st.upsertCalls + 1 := by
  constructor <;> simp [processPayloads, hemp, hsend]

lemma run_eq (env : Env) (h : env.defsRaise = none) :
    (run env).outcome = exceptClauses (tryBody env).2
  ∧ (run env).rows = (tryBody env).1.rows
  ∧ (run env).upsertCalls = (tryBody env).1.upsertCalls
  ∧ (run env).deleteCalls = (tryBody env).1.deleteCalls
  ∧ (run env).clockCalls = (tryBody env).1.clockCalls
  ∧ (run env).fileEvents = [.opened, .closed] := by
  rcases htb : tryBody env with ⟨st, err⟩
  simp [run, h, htb, finallyBlock]

lemma tryBody_zero_tables (env : Env) (h : env.inputTables = []) :
    tryBody env = ({}, some (.userException
      "There is no table specified on the input mapping! You must provide one input table!")) := by
  simp [tryBody, parse_table, h]

lemma tryBody_many_tables (env : Env) (t u : InputTable) (rest : List InputTable)
    (h : env.inputTables = t :: u :: rest) :
    tryBody env = ({}, some (.userException
      "There is more than one table specified on the input mapping! You must provide one input table!")) := by
  simp [tryBody, parse_table, h]

lemma tryBody_missing_column (env : Env) (table : InputTable)
    (h : env.inputTables = [table])
    (hcol : (selected_columns.all fun c => table.columns.contains c) = false) :
    tryBody env = ({}, some (.otherExc "KeyError: columns not in index")) := by
  simp only [tryBody, parse_table, h, hcol, Bool.false_eq_true, if_false]

lemma tryBody_one_table (env : Env) (table : InputTable)
    (h : env.inputTables = [table])
    (hcol : (selected_columns.all fun c => table.columns.contains c) = true) :
    tryBody env
      = processPayloads env (payloads max_records_per_request (table.rows.map normalize)) {} := by
  simp only [tryBody, parse_table, h, hcol, if_true]

/-! The claims. -/

/-- C1: `send_data_to_api` maps HTTP status 204 to the sentinel
"Email updated (Sms,Email)", 200 to the parsed JSON body as a structured
outcome, 404 to the sentinel "Email not found" together with a logged
warning and no error, and any other status to a raised `UserException`
whose message carries the status code and the response body;
`delete_data_from_api` maps 204 to
"Unblock or resubscribe a transactional Email", 404 to
"Transactional Email not found" with a warning and no error, and any
other status to a raised `UserException`; a raised upsert error aborts
the batch loop, so no further batches are processed. -/
theorem claim_C1_api_status_mapping (r : HttpResponse) :
    (r.status = 204 →
      send_data_to_api r = (.ok (.str "Email updated (Sms,Email)"), []))
  ∧ (r.status = 200 → send_data_to_api r = (.ok (.dict r.json), []))
  ∧ (r.status = 404 → send_data_to_api r =
      (.ok (.str "Email not found"),
        ["API returned 404 status. Response: " ++ r.text]))
  ∧ (r.status ≠ 204 → r.status ≠ 200 → r.status ≠ 404 →
      send_data_to_api r = (.error (.userException
        ("Failed to send data to API. Status Code: " ++ toString r.status
          ++ ", Response: " ++ r.text)), []))
  ∧ (r.status = 204 → delete_data_from_api r =
      (.ok "Unblock or resubscribe a transactional Email", []))
  ∧ (r.status = 404 → delete_data_from_api r =
      (.ok "Transactional Email not found",
        ["API returned 404 status. Response: " ++ r.text]))
  ∧ (r.status ≠ 204 → r.status ≠ 404 →
      delete_data_from_api r = (.error (.userException
        ("Failed to delete data from API. Status Code: " ++ toString r.status
          ++ ", Response: " ++ r.text)), []))
  ∧ (∀ (env : Env) (payload : List NormRecord) (rest : List (List NormRecord))
        (st : LoopState) (e : PyExc) (w : List String),
      payload.isEmpty = false →
      send_data_to_api (env.upsertResponse st.upsertCalls) = (.error e, w) →
      (processPayloads env (payload :: rest) st).2 = some e ∧
      (processPayloads env (payload :: rest) st).1.upsertCalls = st.upsertCalls + 1) := by
  refine ⟨?_, ?_, ?_, ?_, ?_, ?_, ?_, ?_⟩
  · intro h; simp [send_data_to_api, h]
  · intro h; simp [send_data_to_api, h]
  · intro h; simp [send_data_to_api, h]
  · intro h1 h2 h3; simp [send_data_to_api, h1, h2, h3]
  · intro h; simp [delete_data_from_api, h]
  · intro h; simp [delete_data_from_api, h]
  · intro h1 h2; simp [delete_data_from_api, h1, h2]
  · intro env payload rest st e w hemp hsend
    exact processPayloads_abort env payload rest st e w hemp hsend

/-- C1 witness: the mapping evaluated at statuses 204, 500 and 404. -/
theorem claim_C1_api_status_mapping_witness :
    send_data_to_api ⟨204, "", []⟩ = (.ok (.str "Email updated (Sms,Email)"), [])
  ∧ send_data_to_api ⟨500, "boom", []⟩ = (.error (.userException
      "Failed to send data to API. Status Code: 500, Response: boom"), [])
  ∧ delete_data_from_api ⟨404, "nf", []⟩ =
      (.ok "Transactional Email not found",
        ["API returned 404 status. Response: nf"]) := by
  refine ⟨(claim_C1_api_status_mapping ⟨204, "", []⟩).1 rfl, ?_, ?_⟩
  · exact (claim_C1_api_status_mapping ⟨500, "boom", []⟩).2.2.2.1
      (by decide) (by decide) (by decide)
  · exact (claim_C1_api_status_mapping ⟨404, "nf", []⟩).2.2.2.2.2.1 rfl

/-- C4: normalization maps `emailBlacklisted` and `smsBlacklisted` to true
iff the original string equals "true" case-insensitively; every other
value, including the empty string, yields false (checked on the spec's
enumerated inputs "TRUE", "true", "False", "", "xyz"). -/
theorem claim_C4_blacklist_normalization (r : Row) :
    ((normalize r).emailBlacklisted = true ↔
      pyLower (getCell r "emailBlacklisted") = "true")
  ∧ ((normalize r).smsBlacklisted = true ↔
      pyLower (getCell r "smsBlacklisted") = "true")
  ∧ (normalize [("emailBlacklisted", "TRUE")]).emailBlacklisted = true
  ∧ (normalize [("smsBlacklisted", "true")]).smsBlacklisted = true
  ∧ (normalize [("emailBlacklisted", "False")]).emailBlacklisted = false
  ∧ (normalize [("emailBlacklisted", "")]).emailBlacklisted = false
  ∧ (normalize [("smsBlacklisted", "xyz")]).smsBlacklisted = false := by
  refine ⟨?_, ?_, by decide, by decide, by decide, by decide, by decide⟩ <;>
    simp [normalize]

/-- C7: for batch size N > 0, batching K normalized records yields
ceil(K/N) = (K + N - 1) / N contiguous groups whose concatenation in
order is the original sequence, each group of size N except possibly the
last (every group nonempty and no larger than N); the loop makes exactly
one upsert call per non-empty group and skips empty groups. -/
theorem claim_C7_batching (n : Nat) (hn : 0 < n) (l : List NormRecord) :
    (payloads n l).length = (l.length + n - 1) / n
  ∧ (payloads n l).flatten = l
  ∧ (∀ c ∈ (payloads n l).dropLast, c.length = n)
  ∧ (∀ c ∈ payloads n l, c.length ≤ n ∧ c ≠ [])
  ∧ (∀ (env : Env), upsertOk env → deleteOk env →
      ∀ (ps : List (List NormRecord)) (st : LoopState),
        (processPayloads env ps st).1.upsertCalls
          = st.upsertCalls + ps.countP (fun p => !p.isEmpty)
        ∧ (processPayloads env ps st).2 = none) := by
  obtain ⟨m, rfl⟩ : ∃ m, n = m + 1 := ⟨n - 1, by omega⟩
  rw [payloads_eq_chunksRec]
  refine ⟨chunksRec_length m l, chunksRec_flatten m l,
    chunksRec_dropLast m l, chunksRec_mem m l, ?_⟩
  intro env hu hd ps st
  obtain ⟨h2, h1⟩ := processPayloads_ok env hu hd ps st
  exact ⟨h1, h2⟩

/-- C7 witness: five records batched with N = 2 give three groups that
flatten back to the original list, and a benign single-record run makes
exactly one upsert call. -/
theorem claim_C7_batching_witness :
    (payloads 2 ((tableSingleTransactional.rows ++ tableTwoPlain.rows
        ++ tableTwoPlain.rows).map normalize)).length = 3
  ∧ (payloads 2 ((tableSingleTransactional.rows ++ tableTwoPlain.rows
        ++ tableTwoPlain.rows).map normalize)).flatten
      = (tableSingleTransactional.rows ++ tableTwoPlain.rows
        ++ tableTwoPlain.rows).map normalize
  ∧ (processPayloads envSingleTransactional
      (payloads max_records_per_request
        (tableSingleTransactional.rows.map normalize)) {}).1.upsertCalls = 1 := by
  obtain ⟨hlen, hflat, _, _, _⟩ := claim_C7_batching 2 (by decide)
    ((tableSingleTransactional.rows ++ tableTwoPlain.rows
      ++ tableTwoPlain.rows).map normalize)
  refine ⟨?_, hflat, ?_⟩
  · rw [hlen]; decide
  · obtain ⟨h1, _⟩ := (claim_C7_batching 1 (by decide)
      (tableSingleTransactional.rows.map normalize)).2.2.2.2
      envSingleTransactional (fun k => Or.inl rfl) (fun k => Or.inl rfl)
      (payloads max_records_per_request (tableSingleTransactional.rows.map normalize)) {}
    rw [h1]; decide

/-- C2: a record whose raw `transactionalContact` string equals "true"
case-insensitively contributes exactly two audit rows (upsert + delete,
when the delete call returns one of its handled statuses); any other
record, e.g. with value "false" or "", contributes exactly one. -/
theorem claim_C2_audit_row_count (env : Env) (out : Outcome)
    (record : NormRecord) (st : LoopState) :
    (pyLower record.transactionalContact = "true" →
      ((env.deleteResponse st.deleteCalls).status = 204 ∨
        (env.deleteResponse st.deleteCalls).status = 404) →
      (processRecord env out record st).1.rows.length = st.rows.length + 2)
  ∧ (pyLower record.transactionalContact ≠ "true" →
      (processRecord env out record st).1.rows.length = st.rows.length + 1) := by
  constructor
  · intro htr hdel
    rcases hdel with hs | hs <;> simp [processRecord, htr, delete_data_from_api, hs]
  · intro htr
    simp [processRecord, htr]

/-- C2 witness: a "TRUE" record yields two rows; a "false" record and an
empty-string record yield one row each. -/
theorem claim_C2_audit_row_count_witness :
    (processRecord envSingleTransactional (.str "S")
      ⟨"a@x.cz", false, false, "TRUE"⟩ {}).1.rows.length = 2
  ∧ (processRecord envSingleTransactional (.str "S")
      ⟨"b@x.cz", false, false, "false"⟩ {}).1.rows.length = 1
  ∧ (processRecord envSingleTransactional (.str "S")
      ⟨"c@x.cz", false, false, ""⟩ {}).1.rows.length = 1 := by
  refine ⟨?_, ?_, ?_⟩
  · have h := (claim_C2_audit_row_count envSingleTransactional (.str "S")
      ⟨"a@x.cz", false, false, "TRUE"⟩ {}).1 (by decide) (Or.inl rfl)
    exact h.trans (by decide)
  · have h := (claim_C2_audit_row_count envSingleTransactional (.str "S")
      ⟨"b@x.cz", false, false, "false"⟩ {}).2 (by decide)
    exact h.trans (by decide)
  · have h := (claim_C2_audit_row_count envSingleTransactional (.str "S")
      ⟨"c@x.cz", false, false, ""⟩ {}).2 (by decide)
    exact h.trans (by decide)

/-- C3 counterexample: in a run over one transactional record with a
clock whose consecutive ticks differ, the delete audit row carries the
same timestamp and the same id as the upsert row, and only one clock
reading is ever taken — not a fresh one captured after the delete call. -/
theorem claim_C3_counterexample :
    (run envSingleTransactional).rows =
      [{ id := "md5:a@x.cz2024-01-01 00:00:00", timestamp := "2024-01-01 00:00:00",
         email := "a@x.cz", status := "Email updated (Sms,Email)" },
       { id := "md5:a@x.cz2024-01-01 00:00:00", timestamp := "2024-01-01 00:00:00",
         email := "a@x.cz", status := "Unblock or resubscribe a transactional Email" }]
  ∧ (run envSingleTransactional).clockCalls = 1
  ∧ envSingleTransactional.clock 1 ≠ envSingleTransactional.clock 0 := by
  refine ⟨by decide, by decide, by decide⟩

/-- C3 amended: the delete audit row reuses the timestamp computed before
the upsert row was written — exactly one clock reading happens per
record — so its timestamp and its id (the hash of the email with that
same timestamp) always equal the upsert row's. -/
theorem claim_C3_delete_row_timestamp (env : Env) (out : Outcome)
    (record : NormRecord) (st : LoopState)
    (htr : pyLower record.transactionalContact = "true") :
    ((env.deleteResponse st.deleteCalls).status = 204 →
      (processRecord env out record st).1.rows = st.rows ++
        [{ id := create_hash env.md5 record.email (env.clock st.clockCalls),
           timestamp := env.clock st.clockCalls, email := record.email,
           status := statusOf out },
         { id := create_hash env.md5 record.email (env.clock st.clockCalls),
           timestamp := env.clock st.clockCalls, email := record.email,
           status := "Unblock or resubscribe a transactional Email" }])
  ∧ ((env.deleteResponse st.deleteCalls).status = 404 →
      (processRecord env out record st).1.rows = st.rows ++
        [{ id := create_hash env.md5 record.email (env.clock st.clockCalls),
           timestamp := env.clock st.clockCalls, email := record.email,
           status := statusOf out },
         { id := create_hash env.md5 record.email (env.clock st.clockCalls),
           timestamp := env.clock st.clockCalls, email := record.email,
           status := "Transactional Email not found" }])
  ∧ (processRecord env out record st).1.clockCalls = st.clockCalls + 1 := by
  refine ⟨?_, ?_, ?_⟩
  · intro hs; simp [processRecord, htr, delete_data_from_api, hs]
  · intro hs; simp [processRecord, htr, delete_data_from_api, hs]
  · rcases hres : delete_data_from_api (env.deleteResponse st.deleteCalls) with ⟨res, ws⟩
    cases res <;> simp [processRecord, htr, hres]

/-- C3 witness for the amended statement: the concrete transactional
record produces two rows that share the tick-0 timestamp and the same
hash id. -/
theorem claim_C3_delete_row_timestamp_witness :
    (processRecord envSingleTransactional (.str "Email updated (Sms,Email)")
      ⟨"a@x.cz", false, false, "TRUE"⟩ {}).1.rows =
      [{ id := "md5:a@x.cz2024-01-01 00:00:00", timestamp := "2024-01-01 00:00:00",
         email := "a@x.cz", status := "Email updated (Sms,Email)" },
       { id := "md5:a@x.cz2024-01-01 00:00:00", timestamp := "2024-01-01 00:00:00",
         email := "a@x.cz", status := "Unblock or resubscribe a transactional Email" }] := by
  have h := (claim_C3_delete_row_timestamp envSingleTransactional
    (.str "Email updated (Sms,Email)") ⟨"a@x.cz", false, false, "TRUE"⟩ {}
    (by decide)).1 rfl
  exact h.trans (by decide)

/-- C5: the audit row status equals the upsert outcome itself when the
outcome is a sentinel string; for a structured outcome it is the
payload's "status" field, defaulting to "Error" when that field is
absent; the extraction applies only to the upsert row, while the delete
row records the delete sentinel verbatim. -/
theorem claim_C5_status_extraction (env : Env) (out : Outcome)
    (record : NormRecord) (st : LoopState) :
    (∀ s, statusOf (.str s) = s)
  ∧ (∀ (d : List (String × String)) (p : String × String),
      d.find? (fun q => q.1 = "status") = some p → statusOf (.dict d) = p.2)
  ∧ (∀ d : List (String × String),
      d.find? (fun q => q.1 = "status") = none → statusOf (.dict d) = "Error")
  ∧ (pyLower record.transactionalContact ≠ "true" →
      (processRecord env out record st).1.rows.map AuditRow.status
        = st.rows.map AuditRow.status ++ [statusOf out])
  ∧ (∀ s w, pyLower record.transactionalContact = "true" →
      delete_data_from_api (env.deleteResponse st.deleteCalls) = (.ok s, w) →
      (processRecord env out record st).1.rows.map AuditRow.status
        = st.rows.map AuditRow.status ++ [statusOf out, s]) := by
  refine ⟨fun s => rfl, ?_, ?_, ?_, ?_⟩
  · intro d p hp; simp [statusOf, hp]
  · intro d hp; simp [statusOf, hp]
  · intro htr; simp [processRecord, htr]
  · intro s w htr hdel; simp [processRecord, htr, hdel]

/-- C5 witness: a 200 body whose "status" field is "queued" is recorded
as "queued", a structured body without the field as "Error", and a
sentinel outcome verbatim. -/
theorem claim_C5_status_extraction_witness :
    statusOf (.dict [("status", "queued")]) = "queued"
  ∧ statusOf (.dict [("code", "x")]) = "Error"
  ∧ (processRecord envSingleTransactional (.dict [("status", "queued")])
      ⟨"b@x.cz", false, false, "false"⟩ {}).1.rows.map AuditRow.status = ["queued"] := by
  refine ⟨?_, ?_, ?_⟩
  · exact (claim_C5_status_extraction envSingleTransactional (.str "")
      ⟨"", false, false, ""⟩ {}).2.1 [("status", "queued")] ("status", "queued") (by decide)
  · exact (claim_C5_status_extraction envSingleTransactional (.str "")
      ⟨"", false, false, ""⟩ {}).2.2.1 [("code", "x")] (by decide)
  · have h := (claim_C5_status_extraction envSingleTransactional
      (.dict [("status", "queued")]) ⟨"b@x.cz", false, false, "false"⟩ {}).2.2.2.1
      (by decide)
    exact h.trans (by decide)

/-- C6 counterexample: with exactly one input table whose header misses
the required `transactionalContact` column, the run exits with code 2 —
the pandas `KeyError` of the column selection is not a `UserException` —
and not with code 1 as the claim requires for every
configuration/validation error. -/
theorem claim_C6_counterexample :
    envMissingColumn.inputTables = [tableMissingColumn]
  ∧ "transactionalContact" ∈ selected_columns
  ∧ "transactionalContact" ∉ tableMissingColumn.columns
  ∧ (run envMissingColumn).outcome = .exitCode 2
  ∧ processExitCode (run envMissingColumn).outcome = some 2
  ∧ (run envMissingColumn).outcome ≠ .exitCode 1 := by
  refine ⟨rfl, by decide, by decide, by decide, by decide, by decide⟩

/-- C6 amended: the process exits 0 on success; it exits 1 on the
configuration errors raised as `UserException` (no input table, more
than one input table) and on any other `UserException`; a missing
required column raises a plain `KeyError` and therefore exits with code
2, like any other unexpected error. -/
theorem claim_C6_exit_codes (env : Env) (h : env.defsRaise = none) :
    (env.inputTables.length ≠ 1 →
      (run env).outcome = .exitCode 1 ∧ processExitCode (run env).outcome = some 1)
  ∧ (∀ table, env.inputTables = [table] →
      (selected_columns.all fun c => table.columns.contains c) = false →
      (run env).outcome = .exitCode 2 ∧ processExitCode (run env).outcome = some 2)
  ∧ ((tryBody env).2 = none →
      (run env).outcome = .success ∧ processExitCode (run env).outcome = some 0)
  ∧ (∀ msg, (tryBody env).2 = some (.userException msg) →
      (run env).outcome = .exitCode 1 ∧ processExitCode (run env).outcome = some 1)
  ∧ (∀ msg, (tryBody env).2 = some (.otherExc msg) →
      (run env).outcome = .exitCode 2 ∧ processExitCode (run env).outcome = some 2) := by
  have hout := (run_eq env h).1
  refine ⟨?_, ?_, ?_, ?_, ?_⟩
  · intro hne
    rcases htab : env.inputTables with _ | ⟨t, _ | ⟨u, rest⟩⟩
    · rw [tryBody_zero_tables env htab] at hout
      exact ⟨hout, by rw [hout]; rfl⟩
    · simp [htab] at hne
    · rw [tryBody_many_tables env t u rest htab] at hout
      exact ⟨hout, by rw [hout]; rfl⟩
  · intro table htab hcol
    rw [tryBody_missing_column env table htab hcol] at hout
    exact ⟨hout, by rw [hout]; rfl⟩
  · intro hnone
    rw [hnone] at hout
    exact ⟨hout, by rw [hout]; rfl⟩
  · intro msg hsome
    rw [hsome] at hout
    exact ⟨hout, by rw [hout]; rfl⟩
  · intro msg hsome
    rw [hsome] at hout
    exact ⟨hout, by rw [hout]; rfl⟩

/-- C6 witness for the amended statement: zero input tables exit 1, the
missing-column table exits 2, and the benign single-record run returns
normally, i.e. process exit code 0. -/
theorem claim_C6_exit_codes_witness :
    (run (mkEnv [])).outcome = .exitCode 1
  ∧ (run envMissingColumn).outcome = .exitCode 2
  ∧ (run envSingleTransactional).outcome = .success
  ∧ processExitCode (run envSingleTransactional).outcome = some 0 := by
  refine ⟨((claim_C6_exit_codes (mkEnv []) rfl).1 (by decide)).1,
    ((claim_C6_exit_codes envMissingColumn rfl).2.1 tableMissingColumn rfl (by decide)).1,
    ?_, ?_⟩
  · exact ((claim_C6_exit_codes envSingleTransactional rfl).2.2.1 (by decide)).1
  · exact ((claim_C6_exit_codes envSingleTransactional rfl).2.2.1 (by decide)).2

/-- C8: the table reader fails, with a `UserException` configuration
error, iff the number of configured input tables differs from one; a
successfully loaded zero-row table is not an error — the run succeeds
with zero batches, zero API calls, and an output table holding only the
header (no audit rows). -/
theorem claim_C8_table_reader (tables : List InputTable) (env : Env)
    (table : InputTable) (h : env.defsRaise = none)
    (htab : env.inputTables = [table])
    (hcol : (selected_columns.all fun c => table.columns.contains c) = true)
    (hrows : table.rows = []) :
    ((∃ msg, parse_table tables = .error (.userException msg)) ↔ tables.length ≠ 1)
  ∧ payloads max_records_per_request ([] : List NormRecord) = []
  ∧ (run env).outcome = .success
  ∧ (run env).rows = []
  ∧ (run env).upsertCalls = 0
  ∧ (run env).deleteCalls = 0
  ∧ (run env).fileEvents = [.opened, .closed] := by
  have htry : tryBody env = ({}, none) := by
    rw [tryBody_one_table env table htab hcol, hrows, List.map_nil, payloads_nil]
    rfl
  obtain ⟨hout, hrws, hup, hdel, hclk, hev⟩ := run_eq env h
  rw [htry] at hout hrws hup hdel
  refine ⟨?_, payloads_nil _, hout, hrws, hup, hdel, hev⟩
  rcases tables with _ | ⟨t, _ | ⟨u, rest⟩⟩ <;> simp [parse_table]

/-- C8 witness: the concrete zero-row table with a valid header runs to
success with no rows, no API calls, and one open/close pair. -/
theorem claim_C8_table_reader_witness :
    (run envEmptyTable).outcome = .success
  ∧ (run envEmptyTable).rows = []
  ∧ (run envEmptyTable).upsertCalls = 0
  ∧ (run envEmptyTable).deleteCalls = 0
  ∧ (run envEmptyTable).fileEvents = [.opened, .closed]
  ∧ (∃ msg, parse_table [] = .error (.userException msg)) := by
  obtain ⟨hiff, _, h3, h4, h5, h6, h7⟩ := claim_C8_table_reader
    ([] : List InputTable) envEmptyTable tableEmpty rfl rfl (by decide) rfl
  exact ⟨h3, h4, h5, h6, h7, hiff.mpr (by decide)⟩

/-- C9: whenever the output file was successfully opened, the run — also
one aborted by a fatal API error in the middle of the batch loop — opens
the file exactly once and closes it exactly once, and the audit rows
written up to the abort point are exactly the rows of the output
table. -/
theorem claim_C9_output_file (env : Env) (h : env.defsRaise = none) :
    (run env).fileEvents = [.opened, .closed]
  ∧ (run env).fileEvents.count .opened = 1
  ∧ (run env).fileEvents.count .closed = 1
  ∧ (run env).rows = (tryBody env).1.rows := by
  obtain ⟨_, hrws, _, _, _, hev⟩ := run_eq env h
  exact ⟨hev, by rw [hev]; decide, by rw [hev]; decide, hrws⟩

/-- C9 witness: in the mid-run failure environment the first batch's
audit row survives, the run exits through the mapped code, and the file
is opened and closed exactly once. -/
theorem claim_C9_output_file_witness :
    (run envMidRunFailure).fileEvents = [.opened, .closed]
  ∧ (run envMidRunFailure).outcome = .exitCode 1
  ∧ (run envMidRunFailure).rows.length = 1 := by
  refine ⟨(claim_C9_output_file envMidRunFailure rfl).1, by decide, by decide⟩

/-- C10: `__init__` never assigns `self._output_file`, so when
`_create_tables_definitions` raises before that assignment the `finally`
block's `if self._output_file` read itself raises `AttributeError`: the
run does not terminate through the mapped exit-code path, and no file
was ever opened or closed. -/
theorem claim_C10_unset_output_file (env : Env) (e : PyExc)
    (h : env.defsRaise = some e) :
    init_output_file_attr = none
  ∧ (run env).outcome = .uncaughtOther "AttributeError: _output_file"
  ∧ processExitCode (run env).outcome = none
  ∧ (run env).fileEvents = [] := by
  refine ⟨rfl, ?_, ?_, ?_⟩ <;>
    simp [run, h, finallyBlock, init_output_file_attr, processExitCode]

/-- C10 witness: the environment whose table-definition step fails ends
in the unhandled `AttributeError`, outside the exit-code mapping, with
no file events. -/
theorem claim_C10_unset_output_file_witness :
    (run envDefsRaise).outcome = .uncaughtOther "AttributeError: _output_file"
  ∧ processExitCode (run envDefsRaise).outcome = none
  ∧ (run envDefsRaise).fileEvents = [] := by
  obtain ⟨_, h1, h2, h3⟩ := claim_C10_unset_output_file envDefsRaise
    (.otherExc "OSError: cannot create output.csv") rfl
  exact ⟨h1, h2, h3⟩

end Brevo
